import Mathlib

/-!
Shallow embedding of the Kaiheila adapter's connection / decoding core
(`nonebot/adapters/kaiheila/adapter.py`): the JSON data model, the
`json_to_event` decoder, the event-model registry with prefix lookup
(`get_event_model`), the sequence store, the receive-loop teardown of
`_forward_ws`, and the heartbeat task `start_heartbeat`.
-/

set_option autoImplicit false

namespace Kaiheila

/-- JSON values as produced by `json.loads` on a websocket frame.
Objects keep insertion order, like Python dicts. -/
inductive JValue where
  | null
  | b (v : Bool)
  | i (v : Int)
  | s (v : String)
  | arr (elems : List JValue)
  | obj (fields : List (String × JValue))
deriving Repr, Inhabited

/-- First value bound to key `k` in an association list (Python dict lookup). -/
def lookupFields : List (String × JValue) → String → Option JValue
  | [], _ => none
  | (k', v) :: rest, k => if k' = k then some v else lookupFields rest k

/-- Assignment `d[k] = v` on a Python dict: overwrite in place if the key
exists, append otherwise. -/
def setKey : List (String × JValue) → String → JValue → List (String × JValue)
  | [], k, v => [(k, v)]
  | (k', v') :: rest, k, v =>
    if k' = k then (k, v) :: rest else (k', v') :: setKey rest k v

/-- Key lookup on a `JValue`; `none` on non-objects and missing keys. -/
def JValue.lookup : JValue → String → Option JValue
  | .obj fs, k => lookupFields fs k
  | _, _ => none

/-- Python `d.get(k)`: `None` (here `JValue.null`) when the key is absent. -/
def JValue.getd (j : JValue) (k : String) : JValue :=
  (j.lookup k).getD .null

/-- Dict assignment lifted to `JValue`; non-objects are returned unchanged
(the callers below only assign into objects). -/
def JValue.set (j : JValue) (k : String) (v : JValue) : JValue :=
  match j with
  | .obj fs => .obj (setKey fs k v)
  | other => other

/-- Whether a `JValue` is a JSON object (a Python dict). -/
def JValue.isObj : JValue → Bool
  | .obj _ => true
  | _ => false

/-! ## Python primitive semantics used by the decoder -/

/-- Python `j[k]` on a value: `KeyError` on missing keys, `TypeError`-style
failure on non-dicts. -/
def pyIndex (j : JValue) (k : String) : Except String JValue :=
  match j with
  | .obj _ =>
    match j.lookup k with
    | some v => .ok v
    | none => .error ("KeyError: " ++ k)
  | _ => .error "TypeError: not a dict"

/-- Python `j.get(k)`: only defined on dicts, `AttributeError` otherwise. -/
def pyGetAttr (j : JValue) (k : String) : Except String JValue :=
  match j with
  | .obj _ => .ok (j.getd k)
  | _ => .error "AttributeError: get"

/-- Python `==` between a JSON value and an int literal
(`True == 1` and `False == 0` hold in Python). -/
def pyEqInt (j : JValue) (n : Int) : Bool :=
  match j with
  | .i v => v = n
  | .b v => (if v then (1 : Int) else 0) = n
  | _ => false

/-- Python `==` between a JSON value and a string literal. -/
def pyEqStr (j : JValue) (t : String) : Bool :=
  match j with
  | .s v => v = t
  | _ => false

/-- Python truthiness of a JSON value. -/
def pyTruthy : JValue → Bool
  | .null => false
  | .b v => v
  | .i v => v != 0
  | .s v => v != ""
  | .arr elems => !elems.isEmpty
  | .obj fields => !fields.isEmpty

/-- Python `str()` of a JSON value, as used in f-string interpolation.
Only the scalar cases are exercised by the adapter. -/
def pyStr : JValue → String
  | .s v => v
  | .i v => toString v
  | .b true => "True"
  | .b false => "False"
  | .null => "None"
  | .arr _ => "list"
  | .obj _ => "dict"

/-- Python `str.lower()` on the receiver's characters (the ASCII case
mapping, which covers every channel-type value the adapter sees), evaluated
structurally so that concrete runs reduce in the kernel. -/
def pyLowerStr (v : String) : String :=
  ⟨v.data.map Char.toLower⟩

/-- Python `x.lower()`: requires a string receiver (`AttributeError` otherwise). -/
def pyLower (j : JValue) : Except String String :=
  match j with
  | .s v => .ok (pyLowerStr v)
  | _ => .error "AttributeError: lower"

/-- Python `author == self_id` at the self-author check, where the left side
is `json_data["d"].get("author_id")` (possibly `None`) and the right side is
an `Optional[str]`. `None == None` is `True` in Python. -/
def authorMatches (author : JValue) (selfId : Option String) : Bool :=
  match author, selfId with
  | .null, none => true
  | .s a, some b => a = b
  | _, _ => false

/-- Embed an `Optional[str]` into a JSON value (`None` or a string). -/
def optStr : Option String → JValue
  | none => .null
  | some v => .s v

/-! ## Sequence store (`ResultStore` in `utils.py`) -/

/-- Modelled from the spec: the process-wide per-connection sequence store
(`ResultStore` lives in `utils.py`, which is absent from `src/`).
`set(identity, sn)` records the latest value; `get(identity)` returns the last
recorded value or 0 if none was recorded. The key is the `Optional[str]`
identity that `json_to_event` passes through. -/
def Store : Type := Option String → JValue

/-- The store before anything was recorded: every identity reads 0. -/
def Store.empty : Store := fun _ => .i 0

/-- Record a value for one identity (last write wins). -/
def Store.set (st : Store) (k : Option String) (v : JValue) : Store :=
  fun k' => if k' = k then v else st k'

/-- `ResultStore.set_sn(self_id, sn)`. -/
def ResultStore.set_sn (st : Store) (selfId : Option String) (sn : JValue) : Store :=
  st.set selfId sn

/-- `ResultStore.get_sn(self_id)`. -/
def ResultStore.get_sn (st : Store) (selfId : String) : JValue :=
  st (some selfId)

/-! ## Signals and event-type enumeration -/

/-- Modelled from the spec: the `SignalTypes` enumeration lives in the event
module, which is absent from `src/`; the spec's wire-protocol section fixes
the integer codes 0=EVENT, 1=HELLO, 2=PING, 3=PONG, 5=RESUME, 6=RECONNECT,
7=RESUME_ACK. -/
def SignalTypes.EVENT : Int := 0

/-- HELLO signal code (see `SignalTypes.EVENT`). -/
def SignalTypes.HELLO : Int := 1

/-- PING signal code (the outbound heartbeat). -/
def SignalTypes.PING : Int := 2

/-- PONG signal code. -/
def SignalTypes.PONG : Int := 3

/-- RECONNECT signal code. -/
def SignalTypes.RECONNECT : Int := 6

/-- RESUME_ACK signal code. -/
def SignalTypes.RESUME_ACK : Int := 7

/-- Modelled from the spec: the fixed enumeration of message subtypes
(`EventTypes` in the event module, absent from `src/`), as (name, value)
pairs in declaration order; `sys` marks a system notice. The decoder
reverse-looks-up `extra.type` against it, taking the first match. -/
def EventTypes : List (String × Int) :=
  [("text", 1), ("image", 2), ("video", 3), ("file", 4),
   ("audio", 8), ("kmarkdown", 9), ("card", 10), ("sys", 255)]

/-- The numeric value of `EventTypes.sys`. -/
def EventTypes.sys : Int := 255

/-! ## Event models and the registry -/

/-- A decoded event: the model class that parsed it, plus the payload dict
the model was constructed from. -/
structure KEvent where
  model : String
  fields : JValue
deriving Repr

/-- Modelled from the spec: how a registered event-model class validates a
payload. The event classes are absent from `src/`; the spec only requires
that construction either succeeds on the given dict or fails and the
resolver moves on, so a model either always accepts (`plain`, covering the
built-in shapes, whose required fields the normalizer always supplies) or
requires one key to be present (`needsKey`, to express failing candidates). -/
inductive ModelKind where
  | plain (name : String)
  | needsKey (name : String) (key : String)
deriving Repr, DecidableEq

/-- One entry of the event-model registry: a dotted registration path
(split at the separator), and the model registered there. -/
structure EventModel where
  path : List String
  kind : ModelKind
deriving Repr, DecidableEq

/-- `model.parse_obj(data)`: `some` event on success, `none` on a
validation failure. -/
def parseModel (k : ModelKind) (d : JValue) : Option KEvent :=
  match k with
  | .plain n => some ⟨n, d⟩
  | .needsKey n key =>
    match d.lookup key with
    | some _ => some ⟨n, d⟩
    | none => none

/-- The candidate loop of `json_to_event`: try each model in order, keep the
first that parses successfully (`for model in models: try ... break`). -/
def tryModels : List EventModel → JValue → Option KEvent
  | [], _ => none
  | m :: ms, d =>
    match parseModel m.kind d with
    | some e => some e
    | none => tryModels ms d

/-- Splitting a character list at the dot separator (the components of a
trie key), evaluated structurally so that concrete runs reduce in the
kernel. -/
def splitDotAux : List Char → List Char → List String
  | [], acc => [⟨acc.reverse⟩]
  | c :: rest, acc =>
    if c = '.' then ⟨acc.reverse⟩ :: splitDotAux rest []
    else splitDotAux rest (c :: acc)

/-- Dotted-path split, as the `StringTrie(separator=".")` does on its keys.
The source prepends "." to every stored key and every query, contributing an
identical empty leading component to both sides, so it is dropped here. -/
def splitPath (name : String) : List String :=
  splitDotAux name.data []

/-- Trie assignment `event_models[...] = model`: overwrite an existing exact
path, otherwise add the new path. -/
def registerModel (r : List EventModel) (name : String) (k : ModelKind) : List EventModel :=
  let p := splitPath name
  if r.any (fun m => decide (m.path = p)) then
    r.map (fun m => if m.path = p then ⟨p, k⟩ else m)
  else
    r ++ [⟨p, k⟩]

/-- `trie.prefixes(query)`: the registered entries whose path is a
(component-wise) prefix of the query, shortest first, as pygtrie yields them
walking from the root. -/
def prefixesOf (r : List EventModel) (q : List String) : List EventModel :=
  (List.range (q.length + 1)).filterMap
    (fun n => r.find? (fun m => decide (m.path = q.take n)))

/-- `Adapter.get_event_model`: all registered models whose path is a prefix
of (or equal to) the queried dotted name, most-specific first. -/
def get_event_model (r : List EventModel) (eventName : String) : List EventModel :=
  (prefixesOf r (splitPath eventName)).reverse

/-- Modelled from the spec: the registry assembled at class-initialization
time from the event module's classes (absent from `src/`) keyed by their
`__event__` dotted paths — the meta-event, message and notice shapes the
resolver consults. -/
def builtin_event_models : List EventModel :=
  [⟨["meta_event"], .plain "MetaEvent"⟩,
   ⟨["meta_event", "lifecycle"], .plain "LifecycleMetaEvent"⟩,
   ⟨["meta_event", "heartbeat"], .plain "HeartbeatMetaEvent"⟩,
   ⟨["message"], .plain "MessageEvent"⟩,
   ⟨["message", "private"], .plain "PrivateMessageEvent"⟩,
   ⟨["message", "group"], .plain "ChannelMessageEvent"⟩,
   ⟨["notice"], .plain "NoticeEvent"⟩]

/-! ## The decoder: `Adapter.json_to_event` -/

/-- Outcome of one `json_to_event` call: a returned event, a `None` return
(self-authored / unknown-resume / caught parse failure), one of the two
protocol exceptions it raises deliberately, or an uncaught Python error
(`KeyError` / `AttributeError` on the envelope, outside the try block). -/
inductive DecodeOutcome where
  | event (e : KEvent)
  | ignored
  | reconnectError
  | tokenError (msg : String)
  | pyError (msg : String)
deriving Repr

/-- Whether an outcome is a returned event. -/
def DecodeOutcome.isEvent : DecodeOutcome → Bool
  | .event _ => true
  | _ => false

/-- Whether an outcome is the invalid-credential (`TokenError`) exception. -/
def DecodeOutcome.isTokenError : DecodeOutcome → Bool
  | .tokenError _ => true
  | _ => false

/-- Whether an outcome is an uncaught Python-level error. -/
def DecodeOutcome.isPyError : DecodeOutcome → Bool
  | .pyError _ => true
  | _ => false

/-- A field of the returned event's payload dict, when there is one. -/
def DecodeOutcome.field : DecodeOutcome → String → Option JValue
  | .event e, k => e.fields.lookup k
  | _, _ => none

/-- The model tag of the returned event, when there is one. -/
def DecodeOutcome.modelName : DecodeOutcome → Option String
  | .event e => some e.model
  | _ => none

/-- The payload normalization in the try block of `json_to_event`
(adapter.py lines 343-366): the field rewrites on `data = json_data['d']`,
branching on system notices versus messages, up to and including the
`message_id` assignment. Errors are the Python exceptions the block can
raise, all caught by the surrounding handler. -/
def normalize (d0 : JValue) (selfId : Option String) : Except String JValue :=
  match d0 with
  | .obj _ =>
    let extra := d0.getd "extra"
    let d1 := d0.set "self_id" (optStr selfId)
    let d2 := d1.set "group_id" (d1.getd "target_id")
    let d3 := d2.set "time" (d2.getd "msg_timestamp")
    let author := d3.getd "author_id"
    let d4 := d3.set "user_id" (if pyEqStr author "1" then .s "SYSTEM" else author)
    match d4.lookup "type" with
    | none => .error "KeyError: type"
    | some ty =>
      if pyEqInt ty EventTypes.sys then
        match pyGetAttr extra "type" with
        | .error e => .error e
        | .ok noticeTy =>
          let d5 := (d4.set "post_type" (.s "notice")).set "notice_type" noticeTy
          match d5.lookup "content" with
          | none => .error "KeyError: content"
          | some content =>
            let d6 := d5.set "message" (.arr [content])
            .ok (d6.set "message_id" (d6.getd "msg_id"))
      else
        match pyGetAttr extra "type" with
        | .error e => .error e
        | .ok extraTy =>
          match (EventTypes.filter (fun p => pyEqInt extraTy p.2)).head? with
          | none => .error "IndexError: no matching EventTypes member"
          | some subTy =>
            let d5 := (d4.set "post_type" (.s "message")).set "sub_type" (.s subTy.1)
            match pyLower (d5.getd "channel_type") with
            | .error e => .error e
            | .ok ctLower =>
              let mt := if ctLower = "person" then "private" else ctLower
              let d6 := d5.set "message_type" (.s mt)
              match d6.lookup "extra" with
              | none => .error "KeyError: extra"
              | some ex =>
                match ex with
                | .obj _ =>
                  let ex2 := ex.set "content" (d6.getd "content")
                  let d7 := (d6.set "extra" ex2).set "event" ex2
                  .ok (d7.set "message_id" (d7.getd "msg_id"))
                | _ => .error "TypeError: extra is not a dict"
  | _ => .error "TypeError: data is not a dict"

/-- The dotted event name built after normalization (adapter.py lines
367-371): `post_type` plus the optional `<post_type>_type` detail and the
optional `sub_type`, each guarded by Python truthiness. -/
def eventName (nd : JValue) : String :=
  let pt := pyStr (nd.getd "post_type")
  let dt := nd.getd (pt ++ "_type")
  let dts := if pyTruthy dt then "." ++ pyStr dt else ""
  let st := nd.getd "sub_type"
  let sts := if pyTruthy st then "." ++ pyStr st else ""
  pt ++ dts ++ sts

/-- Modelled from the spec: the fallback `Event.parse_obj(json_data)` builds
the minimal base event shape from the original envelope (the base `Event`
class is absent from `src/`). -/
def fallbackEvent (jsonData : JValue) : KEvent :=
  ⟨"Event", jsonData⟩

/-- The try block of `json_to_event` (adapter.py lines 342-390): normalize
the payload, look up candidate models by the constructed dotted name, take
the first candidate that parses, fall back to the base event shape built
from the original envelope; any exception inside the block is caught,
logged, and turned into a `None` return. -/
def resolveEvent (r : List EventModel) (jsonData : JValue) (selfId : Option String) :
    DecodeOutcome :=
  match jsonData.lookup "d" with
  | none => .ignored
  | some d =>
    match normalize d selfId with
    | .error _ => .ignored
    | .ok nd =>
      match tryModels (get_event_model r (eventName nd)) nd with
      | some e => .event e
      | none => .event (fallbackEvent jsonData)

/-- The payload of the HELLO code-0 branch: `json_data['d']` enriched with
the lifecycle-connect meta-event tags before `LifecycleMetaEvent.parse_obj`. -/
def helloData (d : JValue) : JValue :=
  ((d.set "post_type" (.s "meta_event")).set "sub_type" (.s "connect")).set
    "meta_event_type" (.s "lifecycle")

/-- The payload of the PONG branch: a fresh dict with the heartbeat
meta-event tags. -/
def heartbeatData : JValue :=
  .obj [("post_type", .s "meta_event"), ("meta_event_type", .s "heartbeat")]

/-- The self-author check and the event-resolution tail of `json_to_event`
(adapter.py lines 338-390), reached by EVENT envelopes, HELLO envelopes with
an unhandled inner code, and envelopes with an unhandled signal value. -/
def afterSignal (r : List EventModel) (st : Store) (jsonData : JValue)
    (selfId : Option String) : DecodeOutcome × Store :=
  match jsonData.lookup "d" with
  | none => (.pyError "KeyError: d", st)
  | some d =>
    match pyGetAttr d "author_id" with
    | .error e => (.pyError e, st)
    | .ok author =>
      if authorMatches author selfId then (.ignored, st)
      else (resolveEvent r jsonData selfId, st)

/-- `Adapter.json_to_event(json_data, self_id)` (adapter.py lines 299-390),
with the `ResultStore` side effect made explicit: non-dict input returns
`None`; otherwise branch on the signal (HELLO inner-code dispatch, PONG
heartbeat, EVENT sequence recording, RECONNECT raise, RESUME_ACK drop),
then run the self-author check and the event resolution. -/
def json_to_event (r : List EventModel) (st : Store) (jsonData : JValue)
    (selfId : Option String) : DecodeOutcome × Store :=
  match jsonData with
  | .obj _ =>
    match jsonData.lookup "s" with
    | none => (.pyError "KeyError: s", st)
    | some signal =>
      if pyEqInt signal SignalTypes.HELLO then
        match jsonData.lookup "d" with
        | none => (.pyError "KeyError: d", st)
        | some d =>
          match pyIndex d "code" with
          | .error e => (.pyError e, st)
          | .ok code =>
            if pyEqInt code 0 then
              (.event ⟨"LifecycleMetaEvent", helloData d⟩, st)
            else if pyEqInt code 40103 then
              (.reconnectError, st)
            else if pyEqInt code 40101 then
              (.tokenError "无效的 token", st)
            else if pyEqInt code 40102 then
              (.tokenError "token 验证失败", st)
            else
              afterSignal r st jsonData selfId
      else if pyEqInt signal SignalTypes.PONG then
        (.event ⟨"HeartbeatMetaEvent", heartbeatData⟩, st)
      else if pyEqInt signal SignalTypes.EVENT then
        match jsonData.lookup "sn" with
        | none => (.pyError "KeyError: sn", st)
        | some sn =>
          afterSignal r (ResultStore.set_sn st selfId sn) jsonData selfId
      else if pyEqInt signal SignalTypes.RECONNECT then
        (.reconnectError, st)
      else if pyEqInt signal SignalTypes.RESUME_ACK then
        (.ignored, st)
      else
        afterSignal r st jsonData selfId
  | _ => (.ignored, st)

/-! ## The connection session: `Adapter._forward_ws` -/

/-- One observable input of the receive loop: a decoded JSON frame, or the
socket/transport raising on `ws.receive()`. -/
inductive WsInput where
  | frame (j : JValue)
  | socketError
deriving Repr

/-- The per-session runtime state threaded through `_forward_ws`: the bound
bot identity (`None` until the handshake completes), the sequence store, and
the identity→socket registry (`self.connections`), kept as the list of
registered identities. -/
structure SessionState where
  bot : Option String
  store : Store
  connections : List String

/-- The `isinstance(event, LifecycleMetaEvent) and event.sub_type ==
"connect"` binding condition of `_forward_ws`. -/
def isLifecycleConnect (e : KEvent) : Bool :=
  decide (e.model = "LifecycleMetaEvent") &&
    (match e.fields.lookup "sub_type" with
     | some (.s v) => v == "connect"
     | _ => false)

/-- The inner receive loop of `_forward_ws` (adapter.py lines 219-260) over
a finite trace of inputs: each frame goes through `json_to_event` with the
current bound identity as hint; a raised `ReconnectError`/`TokenError`, an
uncaught decode exception, or a socket error ends the connection; a
lifecycle-connect event while unbound binds the resolved identity and
registers its socket; other events and `None` returns continue the loop. -/
def runConn (r : List EventModel) (resolvedId : String) :
    SessionState → List WsInput → SessionState
  | st, [] => st
  | st, .socketError :: _ => st
  | st, .frame j :: rest =>
    match json_to_event r st.store j st.bot with
    | (.reconnectError, st') => { st with store := st' }
    | (.tokenError _, st') => { st with store := st' }
    | (.pyError _, st') => { st with store := st' }
    | (.ignored, st') => runConn r resolvedId { st with store := st' } rest
    | (.event e, st') =>
      match st.bot with
      | some _ => runConn r resolvedId { st with store := st' } rest
      | none =>
        if isLifecycleConnect e then
          runConn r resolvedId
            { bot := some resolvedId, store := st',
              connections := resolvedId :: st.connections } rest
        else
          runConn r resolvedId { st with store := st' } rest

/-- The `finally` teardown of `_forward_ws` (adapter.py lines 261-274): when
a bot was bound, the gateway refetch `await self._get_gateway(...)` (line
268) runs FIRST; only if it returns does the teardown reach the
sequence-store reset (line 271), the registry removal and the clearing of
the binding. `gatewayOk` is whether that REST call returns: when it raises,
the reset, the `connections.pop`, the `bot_disconnect` and `bot = None` are
all skipped, the exception is caught by the outer handler at line 275, and
the loop retries with the session state untouched. -/
def teardownSession (gatewayOk : Bool) (st : SessionState) : SessionState :=
  match st.bot with
  | none => st
  | some id =>
    if gatewayOk then
      { bot := none,
        store := ResultStore.set_sn st.store (some id) (.i 0),
        connections := st.connections.erase id }
    else
      st

/-- The outer reconnect loop of `_forward_ws` over a finite list of
connection attempts, each a trace of inputs paired with the outcome of that
teardown's gateway refetch: run the receive loop, tear the session down,
reconnect. `resolvedId` is the identity the REST collaborator resolves for
the credential. -/
def forward_ws (r : List EventModel) (resolvedId : String) :
    SessionState → List (List WsInput × Bool) → SessionState
  | st, [] => st
  | st, (conn, gatewayOk) :: conns =>
    forward_ws r resolvedId (teardownSession gatewayOk (runConn r resolvedId st conn)) conns

/-! ## The heartbeat task: `Adapter.start_heartbeat` -/

/-- The outbound heartbeat frame `{"s": 2, "sn": ...}`. -/
def heartbeatFrame (sn : JValue) : JValue :=
  .obj [("s", .i SignalTypes.PING), ("sn", sn)]

/-- One observation the heartbeat loop makes per 26-second iteration: what
`self.connections.get(self_id)` reports (`none` if the registry no longer
holds the identity, otherwise the socket's closed flag), and the sequence
store at that instant. -/
structure HbTick where
  socket : Option Bool
  store : Store

/-- `Adapter.start_heartbeat` (adapter.py lines 285-297) over a finite trace
of per-iteration observations, returning the frames it sends: while the
registry reports a socket, exit if it is closed, otherwise send
`{"s": 2, "sn": ResultStore.get_sn(self_id)}` and sleep. -/
def start_heartbeat (selfId : String) : List HbTick → List JValue
  | [] => []
  | t :: rest =>
    match t.socket with
    | none => []
    | some true => []
    | some false =>
      heartbeatFrame (ResultStore.get_sn t.store selfId) :: start_heartbeat selfId rest

/-! ## Concrete envelopes used to exercise the decoder -/

/-- The EVENT example envelope of the specification, verbatim: the
`channel_type` field sits inside `extra`. -/
def specExampleFields : List (String × JValue) :=
  [("s", .i 0), ("sn", .i 42),
   ("d", .obj [("type", .i 9), ("target_id", .s "g1"), ("msg_timestamp", .i 1000),
               ("author_id", .s "2"),
               ("extra", .obj [("type", .i 1), ("channel_type", .s "GROUP")]),
               ("content", .s "hi"), ("msg_id", .s "m1")])]

/-- The spec's example envelope as a JSON value. -/
def specExample : JValue := .obj specExampleFields

/-- The same event payload, but with `channel_type` at the payload top
level, which is where `json_to_event` reads it (`data.get('channel_type')`). -/
def topChannelExampleFields : List (String × JValue) :=
  [("s", .i 0), ("sn", .i 42),
   ("d", .obj [("type", .i 9), ("target_id", .s "g1"), ("msg_timestamp", .i 1000),
               ("author_id", .s "2"), ("channel_type", .s "GROUP"),
               ("extra", .obj [("type", .i 1)]),
               ("content", .s "hi"), ("msg_id", .s "m1")])]

/-- The adjusted example envelope as a JSON value. -/
def topChannelExample : JValue := .obj topChannelExampleFields

/-- The adjusted example payload under an unhandled signal value 99. -/
def unknownSignalExample : JValue :=
  .obj [("s", .i 99),
        ("d", .obj [("type", .i 9), ("target_id", .s "g1"), ("msg_timestamp", .i 1000),
                    ("author_id", .s "2"), ("channel_type", .s "GROUP"),
                    ("extra", .obj [("type", .i 1)]),
                    ("content", .s "hi"), ("msg_id", .s "m1")])]

/-- A PONG envelope whose payload carries the bound bot's own `author_id`. -/
def pongSelfExample : JValue :=
  .obj [("s", .i 3), ("d", .obj [("author_id", .s "42")])]

/-- The payload of an EVENT envelope with a "PERSON" channel type. -/
def personDataFields : List (String × JValue) :=
  [("type", .i 9), ("author_id", .s "2"), ("channel_type", .s "PERSON"),
   ("extra", .obj [("type", .i 1)]), ("content", .s "hi"), ("msg_id", .s "m1")]

/-- An EVENT envelope carrying the "PERSON" payload. -/
def personExampleFields : List (String × JValue) :=
  [("s", .i 0), ("sn", .i 1), ("d", .obj personDataFields)]

/-- The normalized dict the decoder builds from the "PERSON" payload with
hint identity "42". -/
def personNormalized : JValue :=
  .obj [("type", .i 9), ("author_id", .s "2"), ("channel_type", .s "PERSON"),
        ("extra", .obj [("type", .i 1), ("content", .s "hi")]),
        ("content", .s "hi"), ("msg_id", .s "m1"), ("self_id", .s "42"),
        ("group_id", .null), ("time", .null), ("user_id", .s "2"),
        ("post_type", .s "message"), ("sub_type", .s "text"),
        ("message_type", .s "private"),
        ("event", .obj [("type", .i 1), ("content", .s "hi")]),
        ("message_id", .s "m1")]

/-- An EVENT envelope without the (spec-optional) top-level `sn` key. -/
def eventNoSnExample : JValue :=
  .obj [("s", .i 0), ("d", .obj [])]

/-! ## Basic lemmas about the data model -/

@[simp] theorem lookupFields_setKey (fs : List (String × JValue)) (k k' : String) (v : JValue) :
    lookupFields (setKey fs k v) k' = if k = k' then some v else lookupFields fs k' := by
  induction fs with
  | nil =>
    simp [setKey, lookupFields]
  | cons p rest ih =>
    obtain ⟨k₀, v₀⟩ := p
    by_cases h0 : k₀ = k
    · subst h0
      by_cases h : k₀ = k' <;> simp [setKey, lookupFields, h]
    · have hsk : setKey ((k₀, v₀) :: rest) k v = (k₀, v₀) :: setKey rest k v := by
        simp [setKey, h0]
      rw [hsk]
      by_cases h1 : k₀ = k' <;> by_cases h2 : k = k'
      · exact absurd (h1.trans h2.symm) h0
      · simp [lookupFields, ih, h1, h2]
      · subst h2
        simp [lookupFields, ih, h1]
      · simp [lookupFields, ih, h1, h2]

@[simp] theorem JValue.set_obj (fs : List (String × JValue)) (k : String) (v : JValue) :
    JValue.set (.obj fs) k v = .obj (setKey fs k v) := rfl

@[simp] theorem JValue.lookup_obj (fs : List (String × JValue)) (k : String) :
    JValue.lookup (.obj fs) k = lookupFields fs k := rfl

@[simp] theorem Store.get_set_eq (st : Store) (k : Option String) (v : JValue) :
    Store.set st k v k = v := by
  simp [Store.set]

@[simp] theorem Store.get_set_ne (st : Store) (k k' : Option String) (v : JValue)
    (h : k' ≠ k) : Store.set st k v k' = st k' := by
  simp [Store.set, h]

/-! ## Stage lemmas about `json_to_event` -/

theorem jte_event_signal (r : List EventModel) (st : Store) (sid : Option String)
    (fs : List (String × JValue)) (sn : JValue)
    (hs : lookupFields fs "s" = some (.i 0))
    (hsn : lookupFields fs "sn" = some sn) :
    json_to_event r st (.obj fs) sid =
      afterSignal r (ResultStore.set_sn st sid sn) (.obj fs) sid := by
  simp [json_to_event, hs, hsn, pyEqInt, SignalTypes.HELLO, SignalTypes.PONG,
        SignalTypes.EVENT]

theorem jte_unknown_signal (r : List EventModel) (st : Store) (sid : Option String)
    (fs : List (String × JValue)) (sig : JValue)
    (hs : lookupFields fs "s" = some sig)
    (hHello : pyEqInt sig SignalTypes.HELLO = false)
    (hPong : pyEqInt sig SignalTypes.PONG = false)
    (hEvent : pyEqInt sig SignalTypes.EVENT = false)
    (hReconnect : pyEqInt sig SignalTypes.RECONNECT = false)
    (hResumeAck : pyEqInt sig SignalTypes.RESUME_ACK = false) :
    json_to_event r st (.obj fs) sid = afterSignal r st (.obj fs) sid := by
  simp [json_to_event, hs, hHello, hPong, hEvent, hReconnect, hResumeAck]

theorem afterSignal_store (r : List EventModel) (st : Store) (j : JValue)
    (sid : Option String) : (afterSignal r st j sid).2 = st := by
  unfold afterSignal
  split
  · rfl
  · split
    · rfl
    · split <;> rfl

theorem afterSignal_self (r : List EventModel) (st : Store)
    (fs ds : List (String × JValue)) (sid : Option String)
    (hd : lookupFields fs "d" = some (.obj ds))
    (hm : authorMatches (JValue.getd (.obj ds) "author_id") sid = true) :
    afterSignal r st (.obj fs) sid = (.ignored, st) := by
  simp [afterSignal, hd, pyGetAttr, hm]

theorem afterSignal_no_self (r : List EventModel) (st : Store)
    (fs ds : List (String × JValue)) (sid : Option String)
    (hd : lookupFields fs "d" = some (.obj ds))
    (hm : authorMatches (JValue.getd (.obj ds) "author_id") sid = false) :
    afterSignal r st (.obj fs) sid = (resolveEvent r (.obj fs) sid, st) := by
  simp [afterSignal, hd, pyGetAttr, hm]

theorem parseModel_fields (k : ModelKind) (d : JValue) (e : KEvent)
    (h : parseModel k d = some e) : e.fields = d := by
  cases k with
  | plain n =>
    unfold parseModel at h
    injection h with h'
    subst h'
    rfl
  | needsKey n key =>
    have h2 : (match d.lookup key with
        | some _ => some (⟨n, d⟩ : KEvent)
        | none => none) = some e := h
    cases hl : d.lookup key with
    | some v =>
      rw [hl] at h2
      injection h2 with h'
      subst h'
      rfl
    | none =>
      rw [hl] at h2
      exact Option.noConfusion h2

theorem tryModels_fields (ms : List EventModel) (d : JValue) (e : KEvent)
    (h : tryModels ms d = some e) : e.fields = d := by
  induction ms with
  | nil => simp [tryModels] at h
  | cons m ms ih =>
    unfold tryModels at h
    split at h
    · exact parseModel_fields m.kind d e (by simp_all)
    · exact ih h

theorem normalize_ok_fields (ds : List (String × JValue)) (sid : Option String) (nd : JValue)
    (h : normalize (.obj ds) sid = .ok nd) :
    nd.lookup "self_id" = some (optStr sid) ∧
    nd.lookup "user_id" = some (if pyEqStr ((lookupFields ds "author_id").getD .null) "1"
      then .s "SYSTEM" else (lookupFields ds "author_id").getD .null) ∧
    (∀ ty : JValue, lookupFields ds "type" = some ty → pyEqInt ty EventTypes.sys = false →
      ∀ ct : String, lookupFields ds "channel_type" = some (.s ct) →
        nd.lookup "message_type" = some (.s (if pyLowerStr ct = "person" then "private"
          else pyLowerStr ct))) := by
  unfold normalize at h
  simp only [JValue.set_obj, JValue.lookup_obj, JValue.getd, lookupFields_setKey,
    String.reduceEq, reduceIte] at h
  cases hty : lookupFields ds "type" with
  | none =>
    rw [hty] at h
    simp at h
  | some ty0 =>
    rw [hty] at h
    cases hsys : pyEqInt ty0 EventTypes.sys with
    | true =>
      simp only [hsys, reduceIte] at h
      cases hga : pyGetAttr ((lookupFields ds "extra").getD JValue.null) "type" with
      | error msg =>
        rw [hga] at h
        simp at h
      | ok nt =>
        rw [hga] at h
        cases hcontent : lookupFields ds "content" with
        | none =>
          rw [hcontent] at h
          simp at h
        | some content =>
          rw [hcontent] at h
          injection h with h'
          subst h'
          refine ⟨by simp, by simp, ?_⟩
          intro ty hty' hfalse ct hct
          have hinj : ty0 = ty := Option.some.inj hty'
          have hcontra : (true : Bool) = false := by
            rw [← hsys, hinj, hfalse]
          exact Bool.noConfusion hcontra
    | false =>
      simp only [hsys] at h
      rw [if_neg Bool.false_ne_true] at h
      split at h
      · exact absurd h (by simp)
      · rename_i extraTy hga
        split at h
        · exact absurd h (by simp)
        · rename_i subTy hsub
          split at h
          · exact absurd h (by simp)
          · rename_i ctl hlow
            split at h
            · exact absurd h (by simp)
            · rename_i ex hextra
              split at h
              · rename_i exfs
                injection h with h'
                subst h'
                refine ⟨by simp, by simp, ?_⟩
                intro ty hty' hfalse ct hct
                rw [hct] at hlow
                have hlow' : Except.ok (ε := String) (pyLowerStr ct) = .ok ctl := hlow
                injection hlow' with hctl
                subst hctl
                simp
              · exact absurd h (by simp)

/-! ## Claim theorems -/

/-- C1: for every decoded HELLO envelope, `json_to_event` branches on the
inner code: code 0 returns a lifecycle-connect meta event (post_type
"meta_event", sub_type "connect", meta_event_type "lifecycle"), code 40103
raises the reconnect-required error, and codes 40101 and 40102 both raise
the invalid-credential (token) error. -/
theorem c1_hello_code_dispatch
    (r : List EventModel) (st : Store) (sid : Option String)
    (fs ds : List (String × JValue)) (c : Int)
    (hs : lookupFields fs "s" = some (.i 1))
    (hd : lookupFields fs "d" = some (.obj ds))
    (hc : lookupFields ds "code" = some (.i c)) :
    (c = 0 →
      (json_to_event r st (.obj fs) sid).1 =
        .event ⟨"LifecycleMetaEvent", helloData (.obj ds)⟩ ∧
      (json_to_event r st (.obj fs) sid).1.field "post_type" = some (.s "meta_event") ∧
      (json_to_event r st (.obj fs) sid).1.field "sub_type" = some (.s "connect") ∧
      (json_to_event r st (.obj fs) sid).1.field "meta_event_type" = some (.s "lifecycle")) ∧
    (c = 40103 → (json_to_event r st (.obj fs) sid).1 = .reconnectError) ∧
    (c = 40101 → (json_to_event r st (.obj fs) sid).1.isTokenError = true) ∧
    (c = 40102 → (json_to_event r st (.obj fs) sid).1.isTokenError = true) := by
  refine ⟨?_, ?_, ?_, ?_⟩ <;> intro hcv <;> subst hcv <;>
    simp [json_to_event, hs, hd, hc, pyIndex, pyEqInt, SignalTypes.HELLO, helloData,
      DecodeOutcome.field, DecodeOutcome.isTokenError]

/-- Witness for C1 at concrete HELLO envelopes with inner codes 0 and 40103. -/
theorem c1_hello_code_dispatch_witness :
    (json_to_event [] Store.empty (.obj [("s", .i 1), ("d", .obj [("code", .i 0)])]) none).1 =
      .event ⟨"LifecycleMetaEvent", helloData (.obj [("code", .i 0)])⟩ ∧
    (json_to_event [] Store.empty
        (.obj [("s", .i 1), ("d", .obj [("code", .i 40103)])]) none).1 = .reconnectError := by
  constructor
  · exact ((c1_hello_code_dispatch [] Store.empty none [("s", .i 1), ("d", .obj [("code", .i 0)])]
      [("code", .i 0)] 0 rfl rfl rfl).1 rfl).1
  · exact (c1_hello_code_dispatch [] Store.empty none
      [("s", .i 1), ("d", .obj [("code", .i 40103)])]
      [("code", .i 40103)] 40103 rfl rfl rfl).2.1 rfl

/-- C3 counterexample: the claim's "user_id equals SYSTEM if and only if
author_id is 1" fails when the payload's `author_id` is the literal string
"SYSTEM": the code then keeps `user_id = "SYSTEM"` although
`author_id ≠ "1"`. -/
theorem c3_counterexample :
    ((.obj [("type", .i 9), ("author_id", .s "SYSTEM"), ("channel_type", .s "GROUP"),
            ("extra", .obj [("type", .i 1)]), ("content", .s "hi"),
            ("msg_id", .s "m1")] : JValue).lookup "author_id" = some (.s "SYSTEM")) ∧
    (json_to_event builtin_event_models Store.empty
        (.obj [("s", .i 0), ("sn", .i 1),
               ("d", .obj [("type", .i 9), ("author_id", .s "SYSTEM"),
                           ("channel_type", .s "GROUP"),
                           ("extra", .obj [("type", .i 1)]), ("content", .s "hi"),
                           ("msg_id", .s "m1")])])
        (some "42")).1.field "user_id" = some (.s "SYSTEM") ∧
    ("SYSTEM" : String) ≠ "1" := by
  refine ⟨by rfl, by rfl, by decide⟩

/-- C3 (amended): for every EVENT envelope that resolves to a typed (non
fallback) event, the event's `self_id` equals the hint identity, its
`user_id` is "SYSTEM" when `author_id` is "1" and is the verbatim
`author_id` otherwise (hence it can also read "SYSTEM" when the author id is
itself the literal "SYSTEM"), and a top-level payload `channel_type` of
"PERSON" yields `message_type` "private", never "person". -/
theorem c3_event_identity_fields
    (r : List EventModel) (st : Store) (sid : String)
    (fs ds : List (String × JValue)) (sn : JValue) (a : String) (e : KEvent)
    (hs : lookupFields fs "s" = some (.i 0))
    (hsn : lookupFields fs "sn" = some sn)
    (hd : lookupFields fs "d" = some (.obj ds))
    (ha : lookupFields ds "author_id" = some (.s a))
    (hres : (json_to_event r st (.obj fs) (some sid)).1 = .event e)
    (hm : e.model ≠ "Event") :
    e.fields.lookup "self_id" = some (.s sid) ∧
    (a = "1" → e.fields.lookup "user_id" = some (.s "SYSTEM")) ∧
    (a ≠ "1" → e.fields.lookup "user_id" = some (.s a)) ∧
    (∀ ty : JValue, lookupFields ds "type" = some ty → pyEqInt ty EventTypes.sys = false →
      lookupFields ds "channel_type" = some (.s "PERSON") →
      e.fields.lookup "message_type" = some (.s "private")) := by
  rw [jte_event_signal r st (some sid) fs sn hs hsn] at hres
  by_cases hself : a = sid
  · have hmt : authorMatches (JValue.getd (.obj ds) "author_id") (some sid) = true := by
      simp [JValue.getd, ha, authorMatches, hself]
    rw [afterSignal_self r _ fs ds (some sid) hd hmt] at hres
    exact absurd hres (by simp)
  · have hmf : authorMatches (JValue.getd (.obj ds) "author_id") (some sid) = false := by
      simp [JValue.getd, ha, authorMatches, hself]
    rw [afterSignal_no_self r _ fs ds (some sid) hd hmf] at hres
    have hres' : resolveEvent r (.obj fs) (some sid) = .event e := hres
    unfold resolveEvent at hres'
    split at hres'
    · exact absurd hres' (by simp)
    · rename_i d0 hd0
      rw [JValue.lookup_obj, hd] at hd0
      injection hd0 with hd0'
      subst hd0'
      split at hres'
      · exact absurd hres' (by simp)
      · rename_i nd hnorm
        obtain ⟨h1, h2, h3⟩ := normalize_ok_fields ds (some sid) nd hnorm
        split at hres'
        · rename_i e' htry
          injection hres' with he
          subst he
          have hf : e'.fields = nd := tryModels_fields _ nd e' htry
          refine ⟨?_, ?_, ?_, ?_⟩
          · rw [hf]
            exact h1
          · intro hA
            subst hA
            simp [ha, pyEqStr] at h2
            rw [hf, h2]
          · intro hA
            rw [hf]
            rw [ha] at h2
            simp [pyEqStr, hA] at h2
            rw [h2]
          · intro ty hty hfalse hct
            rw [hf]
            have h4 := h3 ty hty hfalse "PERSON" hct
            have hlo : pyLowerStr "PERSON" = "person" := by decide
            rw [hlo] at h4
            simpa using h4
        · injection hres' with he
          rw [← he] at hm
          exact absurd rfl hm

/-- Witness for C3 (amended) at the concrete "PERSON" envelope with hint
identity "42". -/
theorem c3_event_identity_fields_witness :
    (KEvent.fields ⟨"PrivateMessageEvent", personNormalized⟩).lookup "self_id" =
      some (.s "42") ∧
    (KEvent.fields ⟨"PrivateMessageEvent", personNormalized⟩).lookup "message_type" =
      some (.s "private") := by
  have h := c3_event_identity_fields builtin_event_models Store.empty "42"
    personExampleFields personDataFields (.i 1) "2"
    ⟨"PrivateMessageEvent", personNormalized⟩
    rfl rfl rfl rfl (by rfl) (by decide)
  exact ⟨h.1, h.2.2.2 (.i 9) rfl rfl rfl⟩

theorem resolveEvent_cases (r : List EventModel) (j : JValue) (sid : Option String) :
    resolveEvent r j sid = .ignored ∨ (resolveEvent r j sid).isEvent = true := by
  unfold resolveEvent
  split
  · exact Or.inl rfl
  · split
    · exact Or.inl rfl
    · split
      · exact Or.inr rfl
      · exact Or.inr rfl

/-- C4 counterexample: on the spec's example envelope as written (with
`channel_type` nested inside `extra`), the sequence store entry for "42"
does become 42, but the decode then fails — the code reads `channel_type`
at the payload top level, so `.lower()` is called on `None` and the
exception is swallowed — and `json_to_event` returns `None`, not an event
with the claimed fields. -/
theorem c4_counterexample :
    (json_to_event builtin_event_models Store.empty specExample (some "42")).2 (some "42") =
      .i 42 ∧
    (json_to_event builtin_event_models Store.empty specExample (some "42")).1 = .ignored := by
  exact ⟨by rfl, by rfl⟩

/-- C4 (amended): every EVENT envelope carrying `sn` first records it into
the sequence store keyed by the hint identity, whatever decoding then does;
on the spec's example envelope as written the store entry for "42" becomes
42 but the decode returns None, while the same payload with `channel_type`
at the payload top level produces the claimed event: post_type "message",
message_type "group", user_id "2", message_id "m1". -/
theorem c4_event_records_sn
    (r : List EventModel) (st : Store) (sid : Option String)
    (fs : List (String × JValue)) (sn : JValue)
    (hs : lookupFields fs "s" = some (.i 0))
    (hsn : lookupFields fs "sn" = some sn) :
    (json_to_event r st (.obj fs) sid).2 = ResultStore.set_sn st sid sn ∧
    (json_to_event builtin_event_models Store.empty topChannelExample (some "42")).2
      (some "42") = .i 42 ∧
    (json_to_event builtin_event_models Store.empty topChannelExample
      (some "42")).1.field "post_type" = some (.s "message") ∧
    (json_to_event builtin_event_models Store.empty topChannelExample
      (some "42")).1.field "message_type" = some (.s "group") ∧
    (json_to_event builtin_event_models Store.empty topChannelExample
      (some "42")).1.field "user_id" = some (.s "2") ∧
    (json_to_event builtin_event_models Store.empty topChannelExample
      (some "42")).1.field "message_id" = some (.s "m1") := by
  refine ⟨?_, by rfl, by rfl, by rfl, by rfl, by rfl⟩
  rw [jte_event_signal r st sid fs sn hs hsn]
  exact afterSignal_store r (ResultStore.set_sn st sid sn) (.obj fs) sid

/-- Witness for C4 (amended) at a concrete EVENT envelope. -/
theorem c4_event_records_sn_witness :
    (json_to_event [] Store.empty (.obj [("s", .i 0), ("sn", .i 5)]) none).2 =
      ResultStore.set_sn Store.empty none (.i 5) :=
  (c4_event_records_sn [] Store.empty none [("s", .i 0), ("sn", .i 5)] (.i 5) rfl rfl).1

/-- C5 counterexample: a PONG envelope whose payload is self-authored still
returns the heartbeat meta event — the PONG branch returns before the
self-author check is reached, so self-authored envelopes do not always
decode to "no event". -/
theorem c5_counterexample :
    (json_to_event builtin_event_models Store.empty pongSelfExample (some "42")).1 =
      .event ⟨"HeartbeatMetaEvent", heartbeatData⟩ := by rfl

/-- C5 (amended): every envelope that reaches the self-author check — in
particular every EVENT envelope carrying `sn` — whose payload `author_id`
equals the bound identity hint decodes to no event, regardless of the rest
of the payload; PONG and HELLO-code-0 envelopes return their meta events
before the check is reached. -/
theorem c5_self_author_ignored
    (r : List EventModel) (st : Store) (sid : Option String)
    (fs ds : List (String × JValue)) (sn : JValue)
    (hs : lookupFields fs "s" = some (.i 0))
    (hsn : lookupFields fs "sn" = some sn)
    (hd : lookupFields fs "d" = some (.obj ds))
    (hmatch : authorMatches (JValue.getd (.obj ds) "author_id") sid = true) :
    json_to_event r st (.obj fs) sid = (.ignored, ResultStore.set_sn st sid sn) := by
  rw [jte_event_signal r st sid fs sn hs hsn,
      afterSignal_self r (ResultStore.set_sn st sid sn) fs ds sid hd hmatch]

/-- Witness for C5 (amended) at a concrete self-authored EVENT envelope. -/
theorem c5_self_author_ignored_witness :
    json_to_event [] Store.empty
      (.obj [("s", .i 0), ("sn", .i 1), ("d", .obj [("author_id", .s "42")])])
      (some "42") = (.ignored, ResultStore.set_sn Store.empty (some "42") (.i 1)) :=
  c5_self_author_ignored [] Store.empty (some "42")
    [("s", .i 0), ("sn", .i 1), ("d", .obj [("author_id", .s "42")])]
    [("author_id", .s "42")] (.i 1) rfl rfl rfl (by rfl)

/-- C7 counterexample: an envelope with the unhandled signal value 99 and
an event-shaped payload is not dropped: it falls through to event decoding
and yields an event. -/
theorem c7_counterexample :
    (json_to_event builtin_event_models Store.empty unknownSignalExample
      (some "42")).1.isEvent = true := by rfl

/-- C7 (amended): RESUME_ACK envelopes are dropped (no event, store
untouched); but envelopes whose signal value is outside the handled set are
not dropped — they fall through to the self-author check and event-payload
decoding. -/
theorem c7_resume_ack_and_fallthrough :
    (∀ (r : List EventModel) (st : Store) (sid : Option String)
       (fs : List (String × JValue)),
      lookupFields fs "s" = some (.i 7) →
      json_to_event r st (.obj fs) sid = (.ignored, st)) ∧
    (∀ (r : List EventModel) (st : Store) (sid : Option String)
       (fs : List (String × JValue)) (sig : JValue),
      lookupFields fs "s" = some sig →
      pyEqInt sig SignalTypes.HELLO = false → pyEqInt sig SignalTypes.PONG = false →
      pyEqInt sig SignalTypes.EVENT = false → pyEqInt sig SignalTypes.RECONNECT = false →
      pyEqInt sig SignalTypes.RESUME_ACK = false →
      json_to_event r st (.obj fs) sid = afterSignal r st (.obj fs) sid) := by
  constructor
  · intro r st sid fs hs
    simp [json_to_event, hs, pyEqInt, SignalTypes.HELLO, SignalTypes.PONG, SignalTypes.EVENT,
      SignalTypes.RECONNECT, SignalTypes.RESUME_ACK]
  · intro r st sid fs sig hs h1 h2 h3 h4 h5
    exact jte_unknown_signal r st sid fs sig hs h1 h2 h3 h4 h5

/-- Witness for C7 (amended) at concrete RESUME_ACK and unknown-signal
envelopes. -/
theorem c7_resume_ack_and_fallthrough_witness :
    json_to_event [] Store.empty (.obj [("s", .i 7)]) none = (.ignored, Store.empty) ∧
    json_to_event [] Store.empty (.obj [("s", .i 99)]) none =
      afterSignal [] Store.empty (.obj [("s", .i 99)]) none := by
  constructor
  · exact c7_resume_ack_and_fallthrough.1 [] Store.empty none [("s", .i 7)] rfl
  · exact c7_resume_ack_and_fallthrough.2 [] Store.empty none [("s", .i 99)] (.i 99)
      rfl rfl rfl rfl rfl rfl

/-- C8 counterexample: an EVENT envelope missing the (spec-optional)
top-level `sn` key makes `json_to_event` raise an uncaught KeyError — an
exception that is neither the reconnect-required nor the invalid-credential
error — so those are not the only exceptions it propagates. -/
theorem c8_counterexample :
    (json_to_event builtin_event_models Store.empty eventNoSnExample
      (some "42")).1.isPyError = true ∧
    (json_to_event builtin_event_models Store.empty eventNoSnExample
      (some "42")).1.isTokenError = false ∧
    (json_to_event builtin_event_models Store.empty eventNoSnExample
      (some "42")).1 ≠ .reconnectError := by
  refine ⟨by rfl, by rfl, ?_⟩
  intro hcon
  exact DecodeOutcome.noConfusion ((by rfl :
    (json_to_event builtin_event_models Store.empty eventNoSnExample (some "42")).1 =
      .pyError "KeyError: sn").symm.trans hcon)

/-- C8 (amended): for EVENT envelopes that carry `sn` and a dict payload,
failure containment holds as claimed: a failing candidate advances to the
next, exhaustion falls back to the base Event shape built from the original
envelope, a normalization failure is caught and returns None, and the
decode always ends in an event or a None — never an exception; but an
EVENT envelope missing a top-level key (`sn`, `d`) raises an uncaught
KeyError in addition to the two protocol errors. -/
theorem c8_decode_failures_contained :
    (∀ (m : EventModel) (ms : List EventModel) (d : JValue),
      parseModel m.kind d = none → tryModels (m :: ms) d = tryModels ms d) ∧
    (∀ (r : List EventModel) (j d nd : JValue) (sid : Option String),
      j.lookup "d" = some d → normalize d sid = .ok nd →
      tryModels (get_event_model r (eventName nd)) nd = none →
      resolveEvent r j sid = .event (fallbackEvent j)) ∧
    (∀ (r : List EventModel) (j d : JValue) (sid : Option String) (msg : String),
      j.lookup "d" = some d → normalize d sid = .error msg →
      resolveEvent r j sid = .ignored) ∧
    (∀ (r : List EventModel) (st : Store) (sid : Option String)
       (fs ds : List (String × JValue)) (sn : JValue),
      lookupFields fs "s" = some (.i 0) → lookupFields fs "sn" = some sn →
      lookupFields fs "d" = some (.obj ds) →
      (json_to_event r st (.obj fs) sid).1 = .ignored ∨
        ((json_to_event r st (.obj fs) sid).1).isEvent = true) := by
  refine ⟨?_, ?_, ?_, ?_⟩
  · intro m ms d hfail
    simp [tryModels, hfail]
  · intro r j d nd sid hd hn ht
    simp [resolveEvent, hd, hn, ht]
  · intro r j d sid msg hd hn
    simp [resolveEvent, hd, hn]
  · intro r st sid fs ds sn hs hsn hd
    rw [jte_event_signal r st sid fs sn hs hsn]
    cases hm : authorMatches (JValue.getd (.obj ds) "author_id") sid with
    | true =>
      rw [afterSignal_self r (ResultStore.set_sn st sid sn) fs ds sid hd hm]
      exact Or.inl rfl
    | false =>
      rw [afterSignal_no_self r (ResultStore.set_sn st sid sn) fs ds sid hd hm]
      exact resolveEvent_cases r (.obj fs) sid

/-- Witness for C8 (amended): a failing candidate advances, and a concrete
EVENT envelope ends in None-or-event. -/
theorem c8_decode_failures_contained_witness :
    tryModels [⟨["message"], .needsKey "Strict" "missing_key"⟩] (.obj []) =
      tryModels [] (.obj []) ∧
    ((json_to_event builtin_event_models Store.empty (.obj topChannelExampleFields)
        (some "42")).1 = .ignored ∨
      ((json_to_event builtin_event_models Store.empty (.obj topChannelExampleFields)
        (some "42")).1).isEvent = true) := by
  constructor
  · exact c8_decode_failures_contained.1 ⟨["message"], .needsKey "Strict" "missing_key"⟩
      [] (.obj []) rfl
  · exact c8_decode_failures_contained.2.2.2 builtin_event_models Store.empty (some "42")
      topChannelExampleFields
      [("type", .i 9), ("target_id", .s "g1"), ("msg_timestamp", .i 1000),
       ("author_id", .s "2"), ("channel_type", .s "GROUP"),
       ("extra", .obj [("type", .i 1)]),
       ("content", .s "hi"), ("msg_id", .s "m1")] (.i 42) rfl rfl rfl

/-- C10: before any bot is bound (hint identity None), an envelope that
reaches the self-author check whose payload object lacks `author_id` is
silently dropped, because the absent author (None) compares equal to the
None hint — both for EVENT envelopes and for envelopes with an unhandled
signal value. -/
theorem c10_unbound_missing_author_dropped :
    (∀ (r : List EventModel) (st : Store) (fs ds : List (String × JValue)) (sn : JValue),
      lookupFields fs "s" = some (.i 0) → lookupFields fs "sn" = some sn →
      lookupFields fs "d" = some (.obj ds) → lookupFields ds "author_id" = none →
      json_to_event r st (.obj fs) none = (.ignored, ResultStore.set_sn st none sn)) ∧
    (∀ (r : List EventModel) (st : Store) (fs ds : List (String × JValue)) (sig : JValue),
      lookupFields fs "s" = some sig →
      pyEqInt sig SignalTypes.HELLO = false → pyEqInt sig SignalTypes.PONG = false →
      pyEqInt sig SignalTypes.EVENT = false → pyEqInt sig SignalTypes.RECONNECT = false →
      pyEqInt sig SignalTypes.RESUME_ACK = false →
      lookupFields fs "d" = some (.obj ds) → lookupFields ds "author_id" = none →
      json_to_event r st (.obj fs) none = (.ignored, st)) := by
  constructor
  · intro r st fs ds sn hs hsn hd ha
    have hm : authorMatches (JValue.getd (.obj ds) "author_id") none = true := by
      simp [JValue.getd, ha, authorMatches]
    rw [jte_event_signal r st none fs sn hs hsn,
        afterSignal_self r (ResultStore.set_sn st none sn) fs ds none hd hm]
  · intro r st fs ds sig hs h1 h2 h3 h4 h5 hd ha
    have hm : authorMatches (JValue.getd (.obj ds) "author_id") none = true := by
      simp [JValue.getd, ha, authorMatches]
    rw [jte_unknown_signal r st none fs sig hs h1 h2 h3 h4 h5,
        afterSignal_self r st fs ds none hd hm]

/-- Witness for C10 at a concrete EVENT envelope without `author_id`,
before binding. -/
theorem c10_unbound_missing_author_dropped_witness :
    json_to_event [] Store.empty
      (.obj [("s", .i 0), ("sn", .i 7), ("d", .obj [("type", .i 9)])]) none =
      (.ignored, ResultStore.set_sn Store.empty none (.i 7)) :=
  c10_unbound_missing_author_dropped.1 [] Store.empty
    [("s", .i 0), ("sn", .i 7), ("d", .obj [("type", .i 9)])]
    [("type", .i 9)] (.i 7) rfl rfl rfl rfl

/-- C6 counterexample: the teardown's gateway refetch (adapter.py line 268)
runs before the sequence-store reset (line 271) inside the same `finally`;
when the refetch raises, the reset, the registry removal and the unbinding
are all skipped, the exception is caught at line 275, and the loop retries
with the bot still bound and the stale sequence number. Concretely: a bound
session holding sn 7 receives a RECONNECT frame, the refetch fails, and the
state entering the next connection still has the bot bound and the store
entry reading 7, not 0. -/
theorem c6_counterexample :
    (teardownSession false (runConn [] "42"
      ⟨some "42", Store.set Store.empty (some "42") (.i 7), ["42"]⟩
      [.frame (.obj [("s", .i 6)])])).bot = some "42" ∧
    (teardownSession false (runConn [] "42"
      ⟨some "42", Store.set Store.empty (some "42") (.i 7), ["42"]⟩
      [.frame (.obj [("s", .i 6)])])).store (some "42") = .i 7 := by
  exact ⟨rfl, rfl⟩

/-- C6 (amended): whenever a connection's receive loop ends while a bot is
bound — reconnect required, unhandled exception, socket closure — and the
teardown's gateway refetch returns, the `finally` teardown resets the bound
identity's sequence-store entry to 0 and clears the binding, so the state
entering the next connection reads 0 for that identity before any EVENT
frame of the new connection is processed; but when the gateway refetch
raises, the reset and the unbinding are skipped and the loop retries with
the session state — bound bot and stale sequence number — untouched. -/
theorem c6_teardown_resets_sn
    (r : List EventModel) (rid : String) (s : SessionState)
    (conn : List WsInput) (conns : List (List WsInput × Bool)) (id : String)
    (h : (runConn r rid s conn).bot = some id) :
    (teardownSession true (runConn r rid s conn)).store (some id) = .i 0 ∧
    (teardownSession true (runConn r rid s conn)).bot = none ∧
    forward_ws r rid s ((conn, true) :: conns) =
      forward_ws r rid (teardownSession true (runConn r rid s conn)) conns ∧
    teardownSession false (runConn r rid s conn) = runConn r rid s conn := by
  refine ⟨?_, ?_, rfl, ?_⟩
  · unfold teardownSession
    rw [h]
    simp [ResultStore.set_sn, Store.set]
  · unfold teardownSession
    rw [h]
    simp
  · unfold teardownSession
    rw [h]
    simp

/-- Witness for C6 (amended) at a concrete bound session whose connection
ends immediately and whose teardown refetch succeeds. -/
theorem c6_teardown_resets_sn_witness :
    (teardownSession true (runConn [] "42"
      ⟨some "42", Store.set Store.empty (some "42") (.i 7), ["42"]⟩ [])).store (some "42") =
      .i 0 ∧
    (teardownSession true (runConn [] "42"
      ⟨some "42", Store.set Store.empty (some "42") (.i 7), ["42"]⟩ [])).bot = none := by
  have h := c6_teardown_resets_sn [] "42"
    ⟨some "42", Store.set Store.empty (some "42") (.i 7), ["42"]⟩ [] [] "42" rfl
  exact ⟨h.1, h.2.1⟩

/-- C9: while the registry reports an open socket for the bound identity,
each heartbeat iteration sends exactly the frame
`s := 2, sn := ResultStore.get_sn(identity)` read from that instant's
store; as soon as the registry no longer holds the identity or reports the
socket closed, the task stops sending — the emitted frames are exactly one
per leading open-socket observation. -/
theorem c9_heartbeat_frames (selfId : String) (obs : List HbTick) :
    start_heartbeat selfId obs =
      (obs.takeWhile (fun t => decide (t.socket = some false))).map
        (fun t => heartbeatFrame (ResultStore.get_sn t.store selfId)) := by
  induction obs with
  | nil => rfl
  | cons t rest ih =>
    cases hsock : t.socket with
    | none => simp [start_heartbeat, List.takeWhile_cons, hsock]
    | some b =>
      cases b with
      | true => simp [start_heartbeat, List.takeWhile_cons, hsock]
      | false => simp [start_heartbeat, List.takeWhile_cons, hsock, ih]

theorem find?_path_eq_of_mem (r : List EventModel) (m : EventModel)
    (wf : r.Pairwise (fun a b => a.path ≠ b.path)) (hm : m ∈ r) :
    r.find? (fun m' => decide (m'.path = m.path)) = some m := by
  induction r with
  | nil => cases hm
  | cons a rest ih =>
    rcases List.pairwise_cons.mp wf with ⟨ha, wf'⟩
    rcases List.mem_cons.mp hm with h | h
    · subst h
      exact List.find?_cons_of_pos _ (by simp)
    · have hne : a.path ≠ m.path := ha m h
      rw [List.find?_cons_of_neg _ (by simp [hne])]
      exact ih wf' h

theorem pairwise_length_lt_filterMap_find (q : List String) (r : List EventModel) :
    ∀ l : List Nat, l.Pairwise (· < ·) → (∀ n ∈ l, n ≤ q.length) →
      (l.filterMap (fun n => r.find? (fun m => decide (m.path = q.take n)))).Pairwise
        (fun a b => a.path.length < b.path.length) := by
  intro l
  induction l with
  | nil =>
    intro _ _
    simp
  | cons n l ih =>
    intro hp hb
    rcases List.pairwise_cons.mp hp with ⟨hlt, hp'⟩
    have hb' : ∀ n' ∈ l, n' ≤ q.length := fun n' hn' => hb n' (List.mem_cons_of_mem _ hn')
    have ihl := ih hp' hb'
    cases hf : r.find? (fun m => decide (m.path = q.take n)) with
    | none =>
      simp only [List.filterMap_cons, hf]
      exact ihl
    | some x =>
      simp only [List.filterMap_cons, hf]
      refine List.Pairwise.cons ?_ ihl
      intro y hy
      obtain ⟨n', hn', hf'⟩ := List.mem_filterMap.mp hy
      have hx : x.path = q.take n := by simpa using List.find?_some hf
      have hy' : y.path = q.take n' := by simpa using List.find?_some hf'
      have hxl : x.path.length = n := by
        rw [hx, List.length_take]
        exact Nat.min_eq_left (hb n (List.mem_cons_self _ _))
      have hyl : y.path.length = n' := by
        rw [hy', List.length_take]
        exact Nat.min_eq_left (hb' n' hn')
      rw [hxl, hyl]
      exact hlt n' hn'

/-- C2: a model registered at a dotted path is returned by
`get_event_model` for every query the path is a (component-wise) prefix of
or equal to; the candidate list is ordered most-specific first (strictly
decreasing path lengths); a query no registered path is a prefix of yields
the empty list, in which case `json_to_event` falls back to the base Event
shape built from the original envelope. -/
theorem c2_get_event_model_prefix_lookup
    (r : List EventModel) (q : String) (m : EventModel)
    (wf : r.Pairwise (fun a b => a.path ≠ b.path)) :
    (m ∈ r → m.path <+: splitPath q → m ∈ get_event_model r q) ∧
    (get_event_model r q).Pairwise (fun a b => b.path.length < a.path.length) ∧
    ((∀ x ∈ r, ¬ x.path <+: splitPath q) → get_event_model r q = []) ∧
    (∀ (jsonData d nd : JValue) (sid : Option String),
      jsonData.lookup "d" = some d → normalize d sid = .ok nd →
      get_event_model r (eventName nd) = [] →
      resolveEvent r jsonData sid = .event (fallbackEvent jsonData)) := by
  refine ⟨?_, ?_, ?_, ?_⟩
  · intro hm hpre
    have htake : m.path = (splitPath q).take m.path.length :=
      List.prefix_iff_eq_take.mp hpre
    have hlen : m.path.length ≤ (splitPath q).length := hpre.length_le
    unfold get_event_model prefixesOf
    rw [List.mem_reverse]
    apply List.mem_filterMap.mpr
    refine ⟨m.path.length, List.mem_range.mpr (Nat.lt_succ_of_le hlen), ?_⟩
    rw [← htake]
    exact find?_path_eq_of_mem r m wf hm
  · unfold get_event_model prefixesOf
    apply List.pairwise_reverse.mpr
    exact pairwise_length_lt_filterMap_find (splitPath q) r _
      (List.pairwise_lt_range _)
      (fun n hn => Nat.lt_succ_iff.mp (List.mem_range.mp hn))
  · intro hnone
    unfold get_event_model prefixesOf
    rw [List.reverse_eq_nil_iff]
    apply List.filterMap_eq_nil_iff.mpr
    intro n _
    cases hf : r.find? (fun m' => decide (m'.path = (splitPath q).take n)) with
    | none => rfl
    | some x =>
      have hx : x.path = (splitPath q).take n := by simpa using List.find?_some hf
      have hmem : x ∈ r := List.mem_of_find?_eq_some hf
      have hpre : x.path <+: splitPath q := by
        rw [hx]
        exact List.take_prefix _ _
      exact absurd hpre (hnone x hmem)
  · intro jsonData d nd sid hd hn hempty
    simp [resolveEvent, hd, hn, hempty, tryModels]

/-- Witness for C2 at the round-trip of the spec: registering a model at
"message.text" and querying "message.text.group" returns it; querying a
path with no registered prefix returns the empty list. -/
theorem c2_get_event_model_prefix_lookup_witness :
    (⟨["message", "text"], .plain "Custom"⟩ : EventModel) ∈
      get_event_model (registerModel [] "message.text" (.plain "Custom"))
        "message.text.group" ∧
    get_event_model (registerModel [] "message.text" (.plain "Custom")) "foo" = [] := by
  constructor
  · exact (c2_get_event_model_prefix_lookup
      (registerModel [] "message.text" (.plain "Custom")) "message.text.group"
      ⟨["message", "text"], .plain "Custom"⟩ (by decide)).1 (by decide) (by decide)
  · exact (c2_get_event_model_prefix_lookup
      (registerModel [] "message.text" (.plain "Custom")) "foo"
      ⟨["message", "text"], .plain "Custom"⟩ (by decide)).2.2.1 (by decide)

end Kaiheila
